import Mathlib

/-!
Shallow embedding of the tofe_ai monitoring pipeline
(`src/monitoring_agent.py`, `src/monitoring_system.py`) and proofs of the
specification claims about it.

The Python code is modelled as pure Lean functions:
* the filesystem seen by `scan_logs` is a map from path to a `FileView`
  (missing file, a file whose `open` raises `OSError`, or a readable list
  of lines);
* the external notification libraries are modelled by an `Outcome` per
  sink kind (the call completes, is skipped because configuration is
  missing, or raises an exception that propagates);
* `os.system("ping ...")` is modelled as a function from server name to
  exit status.
-/

namespace TofeAI

/-- How one file appears to `MonitoringAgent.scan_logs`: absent
(`os.path.exists` is false), unreadable (`open` raises `OSError`), or
readable with a list of lines. -/
inductive FileView where
  | missing : FileView
  | unreadable : FileView
  | readable : List String → FileView

/-- The filesystem as seen by one poll. -/
abbrev FS := String → FileView

/-- Python `str.strip` whitespace set (the characters Python strips by
default). -/
def isWS (c : Char) : Bool :=
  c = ' ' || c = '\t' || c = '\n' || c = '\r' || c = '\x0b' || c = '\x0c'

/-- Strip leading and trailing whitespace from a character list. -/
def stripChars (l : List Char) : List Char :=
  ((l.dropWhile isWS).reverse.dropWhile isWS).reverse

/-- Python `line.strip()`. -/
def strip (s : String) : String := ⟨stripChars s.data⟩

/-- Whether `n` is a prefix of `h` (character lists). -/
def isPref : List Char → List Char → Bool
  | [], _ => true
  | _ :: _, [] => false
  | a :: as, b :: bs => a = b && isPref as bs

/-- Whether `n` occurs as a contiguous sublist of the second argument:
Python's `n in h` on strings. -/
def hasSub (n : List Char) : List Char → Bool
  | [] => isPref n []
  | c :: t => isPref n (c :: t) || hasSub n t

/-- Python `"ERROR" in line` (case-sensitive literal substring test). -/
def containsERROR (line : String) : Bool := hasSub "ERROR".data line.data

/-- The event string `scan_logs` appends for a matching line:
`f"{path}: {line.strip()}"`. -/
def formatEvent (path line : String) : String := path ++ ": " ++ strip line

/-- `MonitoringAgent.scan_logs`, embedded directly from the source: a fold
over the configured paths, skipping missing and unreadable files, and a
fold over each readable file's lines appending formatted ERROR lines. -/
def scanLogs (fs : FS) (paths : List String) : List String :=
  paths.foldl
    (fun events path =>
      match fs path with
      | .missing => events
      | .unreadable => events
      | .readable lines =>
          lines.foldl
            (fun evs line =>
              if containsERROR line then evs ++ [formatEvent path line]
              else evs)
            events)
    []

/-- The events contributed by one path (declarative form, following the
spec's words: the ERROR lines of a readable file, formatted, in order;
nothing for an unavailable file). -/
def fileEvents (fs : FS) (path : String) : List String :=
  match fs path with
  | .readable lines => (lines.filter containsERROR).map (formatEvent path)
  | _ => []

/-- Declarative specification of `scan_logs`, following the spec's words:
the concatenation, over the configured paths in order, of each readable
file's formatted ERROR lines. -/
def scanLogsSpec (fs : FS) (paths : List String) : List String :=
  paths.foldr (fun p acc => fileEvents fs p ++ acc) []

lemma scanFile_foldl (path : String) (lines : List String) (acc : List String) :
    lines.foldl
      (fun evs line =>
        if containsERROR line then evs ++ [formatEvent path line] else evs)
      acc
      = acc ++ (lines.filter containsERROR).map (formatEvent path) := by
  induction lines generalizing acc with
  | nil => simp
  | cons l ls ih =>
      by_cases h : containsERROR l
      · simp [List.foldl_cons, h, ih, List.filter_cons]
      · simp [List.foldl_cons, h, ih, List.filter_cons]

lemma scanLogs_foldl (fs : FS) (paths : List String) (acc : List String) :
    paths.foldl
      (fun events path =>
        match fs path with
        | .missing => events
        | .unreadable => events
        | .readable lines =>
            lines.foldl
              (fun evs line =>
                if containsERROR line then evs ++ [formatEvent path line]
                else evs)
              events)
      acc
      = acc ++ scanLogsSpec fs paths := by
  induction paths generalizing acc with
  | nil => simp [scanLogsSpec]
  | cons p ps ih =>
      cases hfp : fs p with
      | missing =>
          simp only [List.foldl_cons, hfp]
          rw [ih]
          simp [scanLogsSpec, fileEvents, hfp]
      | unreadable =>
          simp only [List.foldl_cons, hfp]
          rw [ih]
          simp [scanLogsSpec, fileEvents, hfp]
      | readable lines =>
          simp only [List.foldl_cons, hfp]
          rw [scanFile_foldl, ih]
          simp [scanLogsSpec, fileEvents, hfp, List.append_assoc]

/-- `scan_logs` agrees with its declarative form. Shared helper. -/
lemma scanLogs_eq_spec (fs : FS) (paths : List String) :
    scanLogs fs paths = scanLogsSpec fs paths := by
  simpa using scanLogs_foldl fs paths []

/-- The external calls made by `MonitoringAgent.run` /
`MonitoringSystem.run`, in source order: the Elasticsearch store write,
the WhatsApp chat message, the email, the Teams meeting, the PDF report. -/
inductive SinkKind where
  | store : SinkKind
  | chat : SinkKind
  | email : SinkKind
  | meeting : SinkKind
  | report : SinkKind
deriving DecidableEq

/-- How one sink call behaves when invoked: it completes normally, it is
skipped because its client/credentials are not configured (the Python
method prints and returns), or the underlying library call raises an
exception (which the caller does not catch). -/
inductive Outcome where
  | ok : Outcome
  | skipped : Outcome
  | raises : Outcome
deriving DecidableEq

/-- Sequential dispatch over a list of sink kinds, as in the bodies of
`MonitoringAgent.run` and `MonitoringSystem.run`: each call is made in
order; a completed or skipped call falls through to the next statement,
while a raised exception propagates out of `run`, so no later sink is
invoked. Returns the attempts actually made (with their outcome) and
whether the dispatch ran to completion. -/
def runSinks (b : SinkKind → Outcome) : List SinkKind → List (SinkKind × Outcome) × Bool
  | [] => ([], true)
  | k :: ks =>
      match b k with
      | .ok => ((k, Outcome.ok) :: (runSinks b ks).1, (runSinks b ks).2)
      | .skipped => ((k, Outcome.skipped) :: (runSinks b ks).1, (runSinks b ks).2)
      | .raises => ([(k, Outcome.raises)], false)

/-- The call sequence of `MonitoringAgent.run` after a nonempty scan:
`log_to_elastic`, `notify_whatsapp`, `notify_email`,
`schedule_teams_meeting`, `generate_pdf_report`. -/
def dispatchOrder : List SinkKind :=
  [SinkKind.store, SinkKind.chat, SinkKind.email, SinkKind.meeting, SinkKind.report]

/-- The call sequence of `MonitoringSystem.run` for a nonempty failure
list: `log_to_elastic`, `notify_whatsapp`, `notify_email`,
`generate_pdf_report` — no meeting call appears in that method. -/
def systemDispatchOrder : List SinkKind :=
  [SinkKind.store, SinkKind.chat, SinkKind.email, SinkKind.report]

/-- The mutable state a `MonitoringAgent` object carries between calls to
`run`: just the configured log paths (the constructor stores no read
cursor and `run`/`scan_logs` assign no attribute). -/
structure AgentState where
  log_paths : List String
deriving DecidableEq

/-- One call of `MonitoringAgent.run`: scan the logs; if no event was
found return immediately with no external call, otherwise make every
dispatch call in source order. The agent state is returned unchanged —
the method mutates nothing on `self`. -/
def runStep (st : AgentState) (fs : FS) (b : SinkKind → Outcome) :
    List (SinkKind × Outcome) × AgentState :=
  if scanLogs fs st.log_paths = [] then ([], st)
  else ((runSinks b dispatchOrder).1, st)

/-- `MonitoringSystem.check_servers`: ping each server in order and
collect those whose exit status is nonzero. `ping` maps a server name to
the `os.system` exit status of its probe. -/
def checkServers (ping : String → Nat) (servers : List String) : List String :=
  servers.foldl (fun failures s => if ping s ≠ 0 then failures ++ [s] else failures) []

/-- `check_servers` instrumented with the probes it performs: the fold
also records every server that is pinged, in order. -/
def checkServersTrace (ping : String → Nat) (servers : List String) :
    List String × List String :=
  servers.foldl
    (fun acc s => (acc.1 ++ [s], if ping s ≠ 0 then acc.2 ++ [s] else acc.2))
    ([], [])

/-- One call of `MonitoringSystem.run`: check the servers; if no failure
was found make no external call, otherwise make every dispatch call of
that method in source order. -/
def systemRun (ping : String → Nat) (servers : List String) (b : SinkKind → Outcome) :
    List (SinkKind × Outcome) :=
  if checkServers ping servers = [] then []
  else (runSinks b systemDispatchOrder).1

/-- Python truthiness of an optional environment string: `None` and the
empty string are falsy. -/
def truthy : Option String → Bool
  | none => false
  | some s => !s.data.isEmpty

/-- Number of SMTP send attempts one call of `notify_email` performs:
zero when `smtplib` is unavailable or `email_from`/`email_password` is
falsy (the method prints and returns), otherwise exactly one — the body
contains a single `sendmail` with no retry loop. -/
def notifyEmailAttempts (smtpAvailable : Bool)
    (email_from email_password : Option String) : Nat :=
  if !smtpAvailable || !truthy email_from || !truthy email_password then 0 else 1

/-- Number of Twilio send attempts one call of `notify_whatsapp`
performs: zero when the client or credentials are missing, otherwise
exactly one — a single `messages.create` with no retry loop. -/
def notifyWhatsappAttempts (twilioAvailable : Bool)
    (twilio_sid twilio_token : Option String) : Nat :=
  if !twilioAvailable || !truthy twilio_sid || !truthy twilio_token then 0 else 1

/-- Incident severity (spec data model). -/
inductive Severity where
  | info : Severity
  | warning : Severity
  | critical : Severity
deriving DecidableEq

/-- Incident lifecycle state (spec data model). -/
inductive IncidentState where
  | opened : IncidentState
  | notifying : IncidentState
  | escalated : IncidentState
  | resolved : IncidentState
deriving DecidableEq

/-- Modelled from the spec: the Incident record of the spec's data model
(no Incident type exists anywhere in the repository sources). Only the
fields the escalation policy reads are carried. -/
structure Incident where
  fingerprint : Nat
  first_seen : Nat
  last_seen : Nat
  occurrence_count : Nat
  severity : Severity
  state : IncidentState
deriving DecidableEq

/-- Modelled from the spec: `DispatchSummary.overall` — true iff at least
one sink succeeded (OR across sink successes). -/
def overallSuccess (log : List (SinkKind × Outcome)) : Bool :=
  log.any (fun a => a.2 = Outcome.ok)

/-- Modelled from the spec: bump severity one level
(Warning becomes Critical; Critical stays Critical). -/
def bumpSeverity : Severity → Severity
  | .info => Severity.warning
  | .warning => Severity.critical
  | .critical => Severity.critical

/-- Modelled from the spec: the EscalationPolicy's Notifying → Escalated
rule, absent from the repository sources. At a poll at time `now`, an
incident in state Notifying whose dispatch log shows no success and whose
age exceeds `escalation_timeout` becomes Escalated with its severity
bumped one level; any other incident is left unchanged. -/
def escalationStep (escalation_timeout now : Nat)
    (log : List (SinkKind × Outcome)) (inc : Incident) : Incident :=
  if inc.state = IncidentState.notifying ∧ overallSuccess log = false ∧
      now - inc.first_seen > escalation_timeout then
    { inc with state := IncidentState.escalated, severity := bumpSeverity inc.severity }
  else inc

/-- A concrete one-file filesystem used in counterexamples: `app.log`
holds three lines, the second an ERROR line. -/
def exFS : FS := fun p =>
  if p = "app.log" then
    FileView.readable ["INFO start", "ERROR disk full", "INFO end"]
  else FileView.missing

/-- Sink behavior where every call completes normally. -/
def bOk : SinkKind → Outcome := fun _ => Outcome.ok

/-- Sink behavior where the email call raises (for instance an SMTP
network error) and every other call completes. -/
def bEmailRaises : SinkKind → Outcome := fun k =>
  if k = SinkKind.email then Outcome.raises else Outcome.ok

/-- Count the attempts recorded against one sink kind. -/
def countKind (k : SinkKind) (log : List (SinkKind × Outcome)) : Nat :=
  log.countP (fun a => a.1 = k)

/-- The filesystem of `exFS` after one more ERROR line is appended to
`app.log`. -/
def exFS2 : FS := fun p =>
  if p = "app.log" then
    FileView.readable
      (["INFO start", "ERROR disk full", "INFO end"] ++ ["ERROR again"])
  else FileView.missing

lemma scanLogsSpec_append (fs : FS) (l₁ l₂ : List String) :
    scanLogsSpec fs (l₁ ++ l₂) = scanLogsSpec fs l₁ ++ scanLogsSpec fs l₂ := by
  induction l₁ with
  | nil => simp [scanLogsSpec]
  | cons p ps ih => simp [scanLogsSpec] at ih ⊢; simp [ih, List.append_assoc]

lemma runSinks_map_fst (b : SinkKind → Outcome) (l : List SinkKind)
    (h : ∀ k ∈ l, b k ≠ Outcome.raises) :
    (runSinks b l).1.map Prod.fst = l := by
  induction l with
  | nil => simp [runSinks]
  | cons k ks ih =>
      cases hbk : b k with
      | ok =>
          simp [runSinks, hbk]
          exact ih (fun x hx => h x (List.mem_cons_of_mem k hx))
      | skipped =>
          simp [runSinks, hbk]
          exact ih (fun x hx => h x (List.mem_cons_of_mem k hx))
      | raises => exact absurd hbk (h k (List.mem_cons_self k ks))

lemma checkServers_foldl (ping : String → Nat) (servers : List String)
    (acc : List String) :
    servers.foldl
      (fun failures s => if ping s ≠ 0 then failures ++ [s] else failures) acc
      = acc ++ servers.filter (fun s => decide (ping s ≠ 0)) := by
  induction servers generalizing acc with
  | nil => simp
  | cons s ss ih =>
      simp only [List.foldl_cons]
      by_cases h : ping s = 0
      · rw [if_neg (not_not_intro h), ih]
        simp [List.filter_cons, h]
      · rw [if_pos h, ih]
        simp [List.filter_cons, h, List.append_assoc]

lemma checkServersTrace_foldl (ping : String → Nat) (servers : List String)
    (accP accF : List String) :
    servers.foldl
      (fun acc s => (acc.1 ++ [s], if ping s ≠ 0 then acc.2 ++ [s] else acc.2))
      (accP, accF)
      = (accP ++ servers, accF ++ servers.filter (fun s => decide (ping s ≠ 0))) := by
  induction servers generalizing accP accF with
  | nil => simp
  | cons s ss ih =>
      simp only [List.foldl_cons]
      by_cases h : ping s = 0
      · rw [if_neg (not_not_intro h), ih]
        simp [List.filter_cons, h, List.append_assoc]
      · rw [if_pos h, ih]
        simp [List.filter_cons, h, List.append_assoc]

/-- C1 counterexample: the agent keeps no fingerprint state. Two
consecutive polls of `run` over an unchanged `app.log` — the same single
ERROR line, hence the same fingerprint, within any `dedup_window` — each
fire a complete notification cycle: two chat notifications are sent,
where the claim requires the second detection to update one Incident
instead of starting another cycle. -/
theorem C1_counterexample :
    scanLogs exFS ["app.log"] = ["app.log: ERROR disk full"] ∧
    countKind SinkKind.chat
      ((runStep ⟨["app.log"]⟩ exFS bOk).1 ++
        (runStep (runStep ⟨["app.log"]⟩ exFS bOk).2 exFS bOk).1) = 2 := by
  constructor
  · rfl
  · rfl

/-- C1 amended: `run` performs no deduplication and keeps no incident
state. Every poll whose scan is nonempty triggers a complete dispatch
cycle, the agent state is unchanged by a poll, and a second poll over the
same filesystem triggers the identical cycle again. -/
theorem C1_no_dedup (st : AgentState) (fs : FS) (b : SinkKind → Outcome)
    (h : scanLogs fs st.log_paths ≠ []) :
    (runStep st fs b).2 = st ∧
    (runStep st fs b).1 = (runSinks b dispatchOrder).1 ∧
    (runStep (runStep st fs b).2 fs b).1 = (runSinks b dispatchOrder).1 := by
  unfold runStep
  simp [h]

/-- Witness for `C1_no_dedup` on the concrete one-file filesystem. -/
theorem C1_no_dedup_witness :
    (runStep ⟨["app.log"]⟩ exFS bOk).1 = (runSinks bOk dispatchOrder).1 :=
  (C1_no_dedup ⟨["app.log"]⟩ exFS bOk (by decide)).2.1

/-- C2 counterexample: with a fully configured agent whose email call
raises (an SMTP network error), `run` makes the store and chat calls,
the email call raises, and the meeting and report sinks are never
invoked — a failing sink does prevent the remaining sinks. -/
theorem C2_counterexample :
    runSinks bEmailRaises dispatchOrder =
      ([(SinkKind.store, Outcome.ok), (SinkKind.chat, Outcome.ok),
        (SinkKind.email, Outcome.raises)], false) ∧
    SinkKind.meeting ∉ (runSinks bEmailRaises dispatchOrder).1.map Prod.fst := by
  constructor
  · rfl
  · decide

/-- C2 amended: a sink that is skipped for missing configuration never
prevents the remaining sinks — dispatch continues exactly as it would on
the rest — but a sink whose call raises aborts the dispatch, and no later
sink is attempted. -/
theorem C2_skip_isolated_raise_aborts (b : SinkKind → Outcome)
    (k : SinkKind) (ks : List SinkKind) :
    (b k = Outcome.skipped →
      runSinks b (k :: ks) =
        ((k, Outcome.skipped) :: (runSinks b ks).1, (runSinks b ks).2)) ∧
    (b k = Outcome.raises →
      runSinks b (k :: ks) = ([(k, Outcome.raises)], false)) := by
  constructor
  · intro h; simp [runSinks, h]
  · intro h; simp [runSinks, h]

/-- Witness for `C2_skip_isolated_raise_aborts`: an unconfigured chat
sink falls through to the email sink. -/
theorem C2_skip_isolated_witness :
    runSinks (fun _ => Outcome.skipped) (SinkKind.chat :: [SinkKind.email]) =
      ((SinkKind.chat, Outcome.skipped) ::
        (runSinks (fun _ => Outcome.skipped) [SinkKind.email]).1,
       (runSinks (fun _ => Outcome.skipped) [SinkKind.email]).2) :=
  (C2_skip_isolated_raise_aborts (fun _ => Outcome.skipped)
    SinkKind.chat [SinkKind.email]).1 rfl

/-- C3 counterexample: a fully configured `notify_email` performs exactly
one SMTP send per invocation — not the `max_retries + 1 = 3` attempts the
claim requires for a sink that keeps failing transiently; there is no
retry loop at all. -/
theorem C3_counterexample :
    notifyEmailAttempts true (some "ops@example.com") (some "secret") = 1 ∧
    notifyEmailAttempts true (some "ops@example.com") (some "secret") ≠ 2 + 1 := by
  constructor
  · rfl
  · decide

/-- C3 amended: no sink invocation is retried. One call of
`notify_email` or `notify_whatsapp` performs at most one transport
attempt (zero when unconfigured, one otherwise); a failing attempt is
never re-attempted and never recorded — the exception propagates. -/
theorem C3_no_retry (smtpAvailable twilioAvailable : Bool)
    (email_from email_password twilio_sid twilio_token : Option String) :
    notifyEmailAttempts smtpAvailable email_from email_password ≤ 1 ∧
    notifyWhatsappAttempts twilioAvailable twilio_sid twilio_token ≤ 1 := by
  unfold notifyEmailAttempts notifyWhatsappAttempts
  constructor <;> split <;> simp

/-- C4 counterexample: a poll leaves the agent state unchanged — no read
offset is stored anywhere — so a second poll over the unchanged
`app.log` yields the already-read ERROR line again, where the claim
requires it to yield only lines appended since the first poll (none). -/
theorem C4_counterexample :
    (runStep ⟨["app.log"]⟩ exFS bOk).2 = ⟨["app.log"]⟩ ∧
    scanLogs exFS (runStep ⟨["app.log"]⟩ exFS bOk).2.log_paths =
      ["app.log: ERROR disk full"] := by
  constructor
  · rfl
  · rfl

/-- C4 amended: `scan_logs` keeps no per-file cursor: the agent state is
unchanged by a poll and every poll rereads each file from the beginning,
so after lines are appended to a file the next poll yields all previous
ERROR events again followed by the events of the appended lines. -/
theorem C4_full_rescan (st : AgentState) (fs : FS) (b : SinkKind → Outcome)
    (fs' : FS) (p : String) (oldLines newLines : List String) :
    (runStep st fs b).2 = st ∧
    (fs p = FileView.readable oldLines →
      fs' p = FileView.readable (oldLines ++ newLines) →
      scanLogs fs' [p] =
        scanLogs fs [p] ++ (newLines.filter containsERROR).map (formatEvent p)) := by
  constructor
  · unfold runStep; split <;> rfl
  · intro h₁ h₂
    rw [scanLogs_eq_spec, scanLogs_eq_spec]
    simp [scanLogsSpec, fileEvents, h₁, h₂, List.filter_append]

/-- Witness for `C4_full_rescan`: appending one ERROR line to `app.log`
makes the next poll yield the old event again plus the new one. -/
theorem C4_full_rescan_witness :
    (runStep ⟨["app.log"]⟩ exFS bOk).2 = ⟨["app.log"]⟩ ∧
    scanLogs exFS2 ["app.log"] =
      scanLogs exFS ["app.log"] ++
        (["ERROR again"].filter containsERROR).map (formatEvent "app.log") :=
  ⟨(C4_full_rescan ⟨["app.log"]⟩ exFS bOk exFS2 "app.log"
      ["INFO start", "ERROR disk full", "INFO end"] ["ERROR again"]).1,
   (C4_full_rescan ⟨["app.log"]⟩ exFS bOk exFS2 "app.log"
      ["INFO start", "ERROR disk full", "INFO end"] ["ERROR again"]).2 rfl rfl⟩

/-- C5 counterexample: for a failing server, `MonitoringSystem.run`
invokes the store, chat, email and report calls and never invokes the
meeting sink — the claim that all four sink kinds are attempted fails on
the server-monitoring pipeline. -/
theorem C5_counterexample :
    systemRun (fun _ => 1) ["db01"] bOk =
      [(SinkKind.store, Outcome.ok), (SinkKind.chat, Outcome.ok),
       (SinkKind.email, Outcome.ok), (SinkKind.report, Outcome.ok)] ∧
    SinkKind.meeting ∉ (systemRun (fun _ => 1) ["db01"] bOk).map Prod.fst := by
  constructor
  · rfl
  · decide

/-- C5 amended: when no sink call raises, `MonitoringAgent.run` attempts
its sinks exactly once each in the fixed order store write, Chat, Email,
Meeting, Report (report last), while `MonitoringSystem.run` attempts
store write, Chat, Email, Report in that order and never attempts the
Meeting sink. -/
theorem C5_dispatch_order (b : SinkKind → Outcome)
    (h : ∀ k, b k ≠ Outcome.raises) :
    (runSinks b dispatchOrder).1.map Prod.fst =
      [SinkKind.store, SinkKind.chat, SinkKind.email, SinkKind.meeting,
       SinkKind.report] ∧
    (runSinks b systemDispatchOrder).1.map Prod.fst =
      [SinkKind.store, SinkKind.chat, SinkKind.email, SinkKind.report] := by
  constructor
  · exact runSinks_map_fst b dispatchOrder (fun k _ => h k)
  · exact runSinks_map_fst b systemDispatchOrder (fun k _ => h k)

/-- Witness for `C5_dispatch_order` with every sink completing. -/
theorem C5_dispatch_order_witness :
    (runSinks bOk dispatchOrder).1.map Prod.fst =
      [SinkKind.store, SinkKind.chat, SinkKind.email, SinkKind.meeting,
       SinkKind.report] :=
  (C5_dispatch_order bOk (fun k => by simp [bOk])).1

/-- C6: for an incident in state Notifying whose dispatch log shows no
success and whose age exceeds `escalation_timeout`, the escalation step
moves it to Escalated and bumps severity one level (Warning becomes
Critical, Critical stays Critical); applying the step again at any later
poll, with any dispatch log and no new events, changes nothing — the
escalation happens exactly once. -/
theorem C6_escalates_once (escalation_timeout now now' : Nat)
    (log log' : List (SinkKind × Outcome)) (inc : Incident)
    (hstate : inc.state = IncidentState.notifying)
    (hfail : overallSuccess log = false)
    (hage : now - inc.first_seen > escalation_timeout) :
    (escalationStep escalation_timeout now log inc).state =
      IncidentState.escalated ∧
    (escalationStep escalation_timeout now log inc).severity =
      bumpSeverity inc.severity ∧
    (inc.severity = Severity.warning →
      (escalationStep escalation_timeout now log inc).severity =
        Severity.critical) ∧
    (inc.severity = Severity.critical →
      (escalationStep escalation_timeout now log inc).severity =
        Severity.critical) ∧
    escalationStep escalation_timeout now' log'
        (escalationStep escalation_timeout now log inc) =
      escalationStep escalation_timeout now log inc := by
  have hcond : inc.state = IncidentState.notifying ∧
      overallSuccess log = false ∧
      now - inc.first_seen > escalation_timeout := ⟨hstate, hfail, hage⟩
  unfold escalationStep
  rw [if_pos hcond]
  refine ⟨rfl, rfl, ?_, ?_, ?_⟩
  · intro h; rw [h]; rfl
  · intro h; rw [h]; rfl
  · rw [if_neg]
    intro hc
    exact absurd hc.1 (by simp)

/-- Witness for `C6_escalates_once`: a Warning incident first seen at
time 0, polled at time 1000 with escalation timeout 900 and an
all-failed dispatch log. -/
theorem C6_escalates_once_witness :
    (escalationStep 900 1000 [(SinkKind.chat, Outcome.raises)]
        ⟨7, 0, 0, 1, Severity.warning, IncidentState.notifying⟩).state =
      IncidentState.escalated :=
  (C6_escalates_once 900 1000 2000 [(SinkKind.chat, Outcome.raises)] []
      ⟨7, 0, 0, 1, Severity.warning, IncidentState.notifying⟩
      rfl (by decide) (by decide)).1

/-- C7: a source that cannot be read — a missing file or one whose open
raises `OSError` — is skipped: the scan over any path list containing it
equals the scan with it removed, so the poll still processes every
remaining source and returns its events; unavailability is never fatal
(the exception is caught inside `scan_logs`, which always returns a
list). -/
theorem C7_unavailable_source_skipped (fs : FS) (p : String)
    (l₁ l₂ : List String)
    (h : fs p = FileView.missing ∨ fs p = FileView.unreadable) :
    scanLogs fs (l₁ ++ p :: l₂) = scanLogs fs (l₁ ++ l₂) := by
  rw [scanLogs_eq_spec, scanLogs_eq_spec]
  have hp : fileEvents fs p = [] := by
    rcases h with h | h <;> simp [fileEvents, h]
  have : scanLogsSpec fs (p :: l₂) = scanLogsSpec fs l₂ := by
    simp [scanLogsSpec, hp]
  rw [scanLogsSpec_append, scanLogsSpec_append, this]

/-- Witness for `C7_unavailable_source_skipped`: a missing first path
does not affect the events of the second. -/
theorem C7_unavailable_witness :
    scanLogs exFS (["missing.log"] ++ ["app.log"]) =
      scanLogs exFS ([] ++ ["app.log"]) :=
  C7_unavailable_source_skipped exFS "missing.log" [] ["app.log"]
    (Or.inl rfl)

/-- C8: `check_servers` probes every configured server exactly once per
poll, in order, and returns precisely the servers whose probe exited
nonzero: a server is in the failure list iff it is configured and
unreachable, and when every probe succeeds the list is empty. -/
theorem C8_liveness_failures (ping : String → Nat) (servers : List String) :
    (checkServersTrace ping servers).1 = servers ∧
    (checkServersTrace ping servers).2 = checkServers ping servers ∧
    checkServers ping servers =
      servers.filter (fun s => decide (ping s ≠ 0)) ∧
    (∀ s, s ∈ checkServers ping servers ↔ s ∈ servers ∧ ping s ≠ 0) ∧
    ((∀ s ∈ servers, ping s = 0) → checkServers ping servers = []) := by
  have hf : checkServers ping servers =
      servers.filter (fun s => decide (ping s ≠ 0)) := by
    unfold checkServers
    rw [checkServers_foldl]
    simp
  have ht : checkServersTrace ping servers =
      (servers, servers.filter (fun s => decide (ping s ≠ 0))) := by
    unfold checkServersTrace
    rw [checkServersTrace_foldl]
    simp
  refine ⟨by rw [ht], by rw [ht, hf], hf, ?_, ?_⟩
  · intro s
    rw [hf]
    simp [List.mem_filter]
  · intro hall
    rw [hf]
    refine List.filter_eq_nil_iff.mpr ?_
    intro s hs
    simp [hall s hs]

/-- Witness for `C8_liveness_failures`: when every probe succeeds the
failure list is empty. -/
theorem C8_liveness_witness :
    checkServers (fun _ => 0) ["db01", "web01"] = [] :=
  (C8_liveness_failures (fun _ => 0) ["db01", "web01"]).2.2.2.2
    (fun _ _ => rfl)

/-- C9: `scan_logs` returns exactly the lines containing the
case-sensitive literal substring ERROR, each formatted as the file path,
a colon and a space, and the whitespace-stripped line, in path order and
within each file in line order, with unavailable files contributing
nothing; the substring test really is case-sensitive. -/
theorem C9_scan_exact (fs : FS) (paths : List String) :
    scanLogs fs paths = scanLogsSpec fs paths ∧
    containsERROR "2024 ERROR disk full" = true ∧
    containsERROR "2024 error disk full" = false := by
  exact ⟨scanLogs_eq_spec fs paths, rfl, rfl⟩

/-- C10: a poll that detects nothing performs no external action:
if `scan_logs` returns no events `MonitoringAgent.run` makes no call and
leaves the agent unchanged, and if `check_servers` reports no failure
`MonitoringSystem.run` makes no call — no store write, chat message,
email, meeting or report. -/
theorem C10_no_events_no_actions :
    (∀ (st : AgentState) (fs : FS) (b : SinkKind → Outcome),
      scanLogs fs st.log_paths = [] → runStep st fs b = ([], st)) ∧
    (∀ (ping : String → Nat) (servers : List String) (b : SinkKind → Outcome),
      checkServers ping servers = [] → systemRun ping servers b = []) := by
  constructor
  · intro st fs b h
    unfold runStep
    rw [if_pos h]
  · intro ping servers b h
    unfold systemRun
    rw [if_pos h]

/-- Witness for `C10_no_events_no_actions`: an empty filesystem and a
reachable server. -/
theorem C10_no_events_witness :
    runStep ⟨["app.log"]⟩ (fun _ => FileView.missing) bOk =
      ([], ⟨["app.log"]⟩) ∧
    systemRun (fun _ => 0) ["db01"] bOk = [] :=
  ⟨C10_no_events_no_actions.1 ⟨["app.log"]⟩ (fun _ => FileView.missing) bOk
      (by decide),
   C10_no_events_no_actions.2 (fun _ => 0) ["db01"] bOk (by decide)⟩

end TofeAI
